import Mathlib

/-!
Verification development for the SOSI reader/writer core
(`src/sosilogikk.py`, function `_read_sosi_file` and friends).

The Python source is shallowly embedded: the line-oriented scan of
`_read_sosi_file` becomes a step function over an explicit `ScanState`,
fallible Python operations (`raise`, unpacking errors, `float(...)`,
shapely constructor errors) become `Except PyErr`, Python dicts become
association lists with in-place update semantics, and Python floats are
modelled as exact decimals (the claims under study depend on token order,
axis swapping and control flow, never on binary rounding).

File decoding is abstracted at the byte level: a file determines the list
of lines UTF-8 decoding yields before any decode error, whether such an
error occurs, and the (total) Latin-1 decoding; the `..TEGNSETT` sniffing
logic of the source is embedded on top of that abstraction.
-/

namespace Sosi

/-- Splitting of a character list at every separator character, keeping
empty pieces (structurally recursive so that proofs can evaluate it). -/
def splitPredAux (p : Char → Bool) : List Char → List Char → List String
  | [], acc => [String.mk acc.reverse]
  | c :: cs, acc =>
    if p c then String.mk acc.reverse :: splitPredAux p cs []
    else splitPredAux p cs (c :: acc)

/-- Split a string at every character satisfying `p`, keeping empties. -/
def splitPred (p : Char → Bool) (s : String) : List String :=
  splitPredAux p s.data []

/-- Whitespace split in the sense of Python `str.split()`: split on runs of
whitespace, dropping empty pieces. -/
def splitWs (s : String) : List String :=
  (splitPred Char.isWhitespace s).filter (fun t => t ≠ "")

/-- Python `str.split(' ')`: split at every single space, keeping empties. -/
def splitOnSpace (s : String) : List String :=
  splitPred (fun c => c == ' ') s

/-- Python `str.strip()` (over the whitespace characters of `Char.isWhitespace`). -/
def strTrim (s : String) : String :=
  String.mk (((s.data.dropWhile Char.isWhitespace).reverse.dropWhile
    Char.isWhitespace).reverse)

/-- Python `str.startswith(p)`. -/
def strStartsWith (s p : String) : Bool :=
  p.data.isPrefixOf s.data

/-- Python `s[n:]`. -/
def strDrop (s : String) (n : Nat) : String :=
  String.mk (s.data.drop n)

/-- Python `s[:-1]` (empty stays empty). -/
def strDropRight1 (s : String) : String :=
  String.mk s.data.dropLast

/-- Python `str.split(maxsplit=1)`: strip leading whitespace, take the first
whitespace-free token, then the remainder with its leading whitespace removed
(trailing whitespace of the remainder is kept). Result has 0, 1 or 2 items. -/
def splitMax1 (s : String) : List String :=
  let cs := s.data.dropWhile Char.isWhitespace
  let key := cs.takeWhile (fun c => ¬ c.isWhitespace)
  let rest := (cs.dropWhile (fun c => ¬ c.isWhitespace)).dropWhile Char.isWhitespace
  if key.isEmpty then []
  else if rest.isEmpty then [String.mk key]
  else [String.mk key, String.mk rest]

/-- Python `str.lstrip('.')`. -/
def lstripDots (s : String) : String :=
  String.mk (s.data.dropWhile (fun c => c = '.'))

/-- Exact decimal numbers `num / 10 ^ exp10`, the model of the Python
floats this format carries. The claims under study depend on token order
and control flow, never on binary rounding, and the source never adds or
compares parsed values except for the `scale_factor != 1.0` check, which
`veq` decides exactly. -/
structure Dec where
  num : Int
  exp10 : Nat
deriving DecidableEq

/-- Ten to a natural power, structurally recursive. -/
def pow10 : Nat → Int
  | 0 => 1
  | n + 1 => 10 * pow10 n

/-- Value equality of two exact decimals (cross-multiplication). -/
def Dec.veq (a b : Dec) : Bool :=
  a.num * pow10 b.exp10 == b.num * pow10 a.exp10

/-- Product of two exact decimals. -/
def Dec.mul (a b : Dec) : Dec :=
  ⟨a.num * b.num, a.exp10 + b.exp10⟩

/-- Numeric value of a list of decimal digit characters. -/
def digitsToNat (cs : List Char) : Nat :=
  cs.foldl (fun acc c => acc * 10 + (c.toNat - '0'.toNat)) 0

/-- Python `float(...)` on the decimal literals this format uses:
optional sign, digits with at most one decimal point, at least one digit.
(The exponent/inf/nan forms Python would also accept never occur in the
claims under study.) Returns `none` where Python raises `ValueError`. -/
def parseFloat (s : String) : Option Dec :=
  let cs := s.data
  let sgn : Int × List Char :=
    match cs with
    | '-' :: r => (-1, r)
    | '+' :: r => (1, r)
    | r => (1, r)
  let ip := sgn.2.takeWhile Char.isDigit
  let rest := sgn.2.dropWhile Char.isDigit
  match rest with
  | [] => if ip.isEmpty then none else some ⟨sgn.1 * digitsToNat ip, 0⟩
  | '.' :: fp =>
      if fp.all Char.isDigit && ¬ (ip.isEmpty && fp.isEmpty) then
        some ⟨sgn.1 * digitsToNat (ip ++ fp), fp.length⟩
      else none
  | _ => none

/-- Attribute values: a string, or the `np.nan` sentinel stored for a
two-dot line without a value. -/
inductive AttrVal
  | str (v : String)
  | nan
deriving DecidableEq

/-- Python truthiness of an attribute value (`np.nan` is truthy,
a string is truthy iff non-empty). -/
def AttrVal.truthy : AttrVal → Bool
  | .str v => v ≠ ""
  | .nan => true

/-- Object attribute map, with Python-dict semantics (ordered, in-place
value update). -/
abbrev Attrs := List (String × AttrVal)

/-- Python dict assignment `d[k] = v`: replace in place if the key exists,
else append. -/
def dictInsert {β : Type} (l : List (String × β)) (k : String) (v : β) :
    List (String × β) :=
  if l.any (fun p => p.1 == k) then
    l.map (fun p => if p.1 == k then (k, v) else p)
  else l ++ [(k, v)]

/-- Python `d.get(k, dflt)`. -/
def dictGetD {β : Type} (l : List (String × β)) (k : String) (dflt : β) : β :=
  (List.lookup k l).getD dflt

/-- Python `set.add`. -/
def setInsert (l : List String) (k : String) : List String :=
  if l.contains k then l else l ++ [k]

/-- A coordinate as built by the scan: `(x, y)` is (easting, northing)
after the axis swap, `z` the optional height. -/
structure Coord where
  x : Dec
  y : Dec
  z : Option Dec
deriving DecidableEq

/-- Shapely geometries as far as the reader constructs them. -/
inductive Geometry
  | point (c : Coord)
  | lineString (cs : List Coord)
  | polygon (cs : List Coord)
deriving DecidableEq

/-- Errors raised by the embedded Python code. -/
inductive PyErr
  | missingObjtype      -- ValueError: OBJTYPE missing in KURVE, not marked deleted
  | missingEnhet        -- ValueError: ...ENHET not found (end of parse)
  | indexError          -- IndexError: list index / too few tokens
  | valueError          -- ValueError: float() failure or unpacking mismatch
  | attributeError      -- AttributeError: .split() on the nan sentinel
  | shapelyError        -- shapely constructor rejected the coordinate list
deriving DecidableEq

/-- Shapely `LineString(cs)`: needs at least two coordinates. -/
def mkLineString (cs : List Coord) : Except PyErr Geometry :=
  if cs.length ≥ 2 then .ok (.lineString cs) else .error .shapelyError

/-- Shapely `Polygon(cs)`: an empty list gives an empty polygon, one or two
coordinates raise, three or more are accepted (the ring is auto-closed). -/
def mkPolygon (cs : List Coord) : Except PyErr Geometry :=
  if cs.length = 1 ∨ cs.length = 2 then .error .shapelyError else .ok (.polygon cs)

/-- `_convert_to_2d_if_mixed`: if any captured coordinate is 2D, drop the
height everywhere; else if the declared dimension is 3 keep the 3-tuples;
else unpack every entry as a 2-tuple (a Python `ValueError` if a 3-tuple
remains, which happens when a 3D block was followed by a 2D marker with no
2D coordinate captured). -/
def convertTo2dIfMixed (coordinates : List Coord) (dimension : Option Nat) :
    Except PyErr (List Coord) :=
  if coordinates.any (fun c => c.z.isNone) then
    .ok (coordinates.map (fun c => { x := c.x, y := c.y, z := none }))
  else if dimension = some 3 then
    .ok coordinates
  else if coordinates.all (fun c => c.z.isNone) then
    .ok coordinates
  else
    .error .valueError

/-- Header metadata dictionary (`header_metadata` in the source). The last
three fields are initialised and never written by the reader. -/
structure HeaderMeta where
  enhet : Option Dec := none
  vertDatum : Option String := none
  koordsys : Option String := none
  origoNO : Option String := none
  sosiVersjon : Option String := none
  sosiNivaa : Option String := none
  objektkatalog : Option String := none
deriving DecidableEq

/-- The mutable locals of `_read_sosi_file`, one record per Python variable.
(`kp` and `found_2d` are written but never read in the source and are
omitted.) -/
structure ScanState where
  geometry : List Geometry
  attributes : List Attrs
  enhetScale : Option Dec
  sosiIndex : List (Nat × List String)
  allAttributes : List String
  currentObject : List String
  objectId : Nat
  kurveCoordinates : List (String × List Coord)
  currentAttributes : Attrs
  coordinates : List Coord
  capturing : Bool
  geomType : Option String
  flateRefs : List String
  expectingCoordinates : Bool
  coordinateDim : Option Nat
  minN : Option Dec
  minE : Option Dec
  maxN : Option Dec
  maxE : Option Dec
  headerMeta : HeaderMeta
  inHeader : Bool
  currentSection : Option String
deriving DecidableEq

/-- Initial state of the scan. `min_n = inf` etc. are modelled as `none`. -/
def initState : ScanState where
  geometry := []
  attributes := []
  enhetScale := none
  sosiIndex := []
  allAttributes := []
  currentObject := []
  objectId := 0
  kurveCoordinates := []
  currentAttributes := []
  coordinates := []
  capturing := false
  geomType := none
  flateRefs := []
  expectingCoordinates := false
  coordinateDim := none
  minN := none
  minE := none
  maxN := none
  maxE := none
  headerMeta := {}
  inHeader := false
  currentSection := none

/-- Lines 263-272 of the source: derive the curve id of a finalized
`.KURVE`. `OBJTYPE` truthy: last whitespace token of its value (`.split()`
on the nan sentinel is an `AttributeError`, on a whitespace-only string an
`IndexError`). Otherwise `ENDRET == "H"` synthesizes `kurve_<object_id>`,
else the fatal `ValueError` for a missing OBJTYPE. -/
def deriveKurveId (attrs : Attrs) (objectId : Nat) : Except PyErr String :=
  let objtypeValue := dictGetD attrs "OBJTYPE" (.str "")
  if objtypeValue.truthy then
    match objtypeValue with
    | .nan => .error .attributeError
    | .str v =>
        match (splitWs v).getLast? with
        | some t => .ok t
        | none => .error .indexError
  else
    if dictGetD attrs "ENDRET" (.str "") = .str "H" then
      .ok ("kurve_" ++ toString objectId)
    else .error .missingObjtype

/-- Lines 261-262 of the source: when the finalizing marker is a geometry
marker, store `marker.split(' ')[1][:-1]` under `SOSI_REF` in the
attributes of the object being finalized (an `IndexError` when the marker
line has no second `' '`-separated field). -/
def sosiRefUpdate (m : String) (attrs : Attrs) : Except PyErr Attrs :=
  if strStartsWith m ".KURVE" || strStartsWith m ".PUNKT" || strStartsWith m ".FLATE" then
    match (splitOnSpace m).get? 1 with
    | some t => .ok (dictInsert attrs "SOSI_REF" (.str (strDropRight1 t)))
    | none => .error .indexError
  else .ok attrs

/-- Lines 285-289 of the source: concatenate, in listed order, the curve
table entries of the stripped reference lines that resolve. -/
def flateResolve (flateRefs : List String) (tbl : List (String × List Coord)) :
    List Coord :=
  flateRefs.flatMap (fun r => (List.lookup (strTrim r) tbl).getD [])

/-- Emission part of marker-triggered finalization (lines 259-297 of the
source): the geometries and attribute maps to append (one of each, or
neither) and the updated curve table. `m` is the stripped marker line. -/
def finalizeEmit (m : String) (st : ScanState) :
    Except PyErr (List Geometry × List Attrs × List (String × List Coord)) :=
  if st.coordinates ≠ [] ∧ st.currentAttributes ≠ [] then
    match convertTo2dIfMixed st.coordinates st.coordinateDim with
    | .error e => .error e
    | .ok uniform =>
      match sosiRefUpdate m st.currentAttributes with
      | .error e => .error e
      | .ok attrs =>
        if st.geomType = some ".KURVE" then
          match deriveKurveId attrs st.objectId with
          | .error e => .error e
          | .ok kurveId =>
            match mkLineString uniform with
            | .error e => .error e
            | .ok g =>
              .ok ([g], [attrs],
                if kurveId ≠ "" then dictInsert st.kurveCoordinates kurveId uniform
                else st.kurveCoordinates)
        else if st.geomType = some ".PUNKT" then
          if uniform.length = 1 then
            match uniform.head? with
            | some c => .ok ([.point c], [attrs], st.kurveCoordinates)
            | none => .error .indexError
          else .ok ([], [], st.kurveCoordinates)
        else if st.geomType = some ".FLATE" then
          if st.flateRefs ≠ [] then
            let flateCoords := flateResolve st.flateRefs st.kurveCoordinates
            if flateCoords ≠ [] then
              match mkPolygon flateCoords with
              | .error e => .error e
              | .ok g => .ok ([g], [attrs], st.kurveCoordinates)
            else
              match uniform.head? with
              | some c => .ok ([.point c], [attrs], st.kurveCoordinates)
              | none => .error .indexError
          else
            match uniform.head? with
            | some c => .ok ([.point c], [attrs], st.kurveCoordinates)
            | none => .error .indexError
        else .ok ([], [], st.kurveCoordinates)
  else .ok ([], [], st.kurveCoordinates)

/-- The `try:` block run when a marker line ends an open capture
(lines 258-304 of the source): conditionally emit geometry and attributes,
then unconditionally record the raw-line buffer under the current object id
and increment it. -/
def finalizeStep (m : String) (st : ScanState) : Except PyErr ScanState :=
  match finalizeEmit m st with
  | .error e => .error e
  | .ok (gs, as, tbl) =>
    .ok { st with
      geometry := st.geometry ++ gs
      attributes := st.attributes ++ as
      kurveCoordinates := tbl
      sosiIndex := st.sosiIndex ++ [(st.objectId, st.currentObject)]
      objectId := st.objectId + 1 }

/-- Lines 253-316 of the source: a line starting with `.KURVE`, `.PUNKT`,
`.FLATE` or `.SLUTT` leaves the header, finalizes an open capture, and opens
a fresh capture for this marker (also for `.SLUTT`: the source has no break).
`line` is the raw line, `m` the stripped one. -/
def markerStep (line m : String) (st : ScanState) : Except PyErr ScanState :=
  match (match st.capturing with
         | true => finalizeStep m st
         | false => .ok st) with
  | .error e => .error e
  | .ok st1 =>
    match (splitWs m).head? with
    | some g0 =>
      .ok { st1 with
        inHeader := false
        currentAttributes := []
        coordinates := []
        capturing := true
        geomType := some g0
        flateRefs := []
        expectingCoordinates := false
        coordinateDim := none
        currentObject := [line] }
    | none => .error .indexError

/-- Lines 319-345 of the source: header processing. Two-dot lines set the
current subsection; three-dot lines are `<name> <value>` pairs (a
`ValueError` if the unpacking into exactly two parts fails), interpreted
under `..TRANSPAR` and `..OMRÅDE`. -/
def headerStep (s : String) (st : ScanState) : Except PyErr ScanState :=
  if strStartsWith s ".." && ¬ strStartsWith s "..." then
    match (splitWs s).head? with
    | some sec => .ok { st with currentSection := some sec }
    | none => .error .indexError
  else if strStartsWith s "..." then
    match splitMax1 (strDrop s 3) with
    | [attrName, attrValue] =>
      if st.currentSection = some "..TRANSPAR" then
        if attrName = "ENHET" then
          match parseFloat attrValue with
          | some q =>
            .ok { st with
              enhetScale := some q
              headerMeta := { st.headerMeta with enhet := some q } }
          | none => .error .valueError
        else if attrName = "VERT-DATUM" then
          .ok { st with headerMeta := { st.headerMeta with vertDatum := some attrValue } }
        else if attrName = "KOORDSYS" then
          .ok { st with headerMeta := { st.headerMeta with koordsys := some attrValue } }
        else if attrName = "ORIGO-NØ" then
          .ok { st with headerMeta := { st.headerMeta with origoNO := some attrValue } }
        else .ok st
      else if st.currentSection = some "..OMRÅDE" then
        if attrName = "MIN-NØ" then
          match splitWs attrValue with
          | [t1, t2] =>
            match parseFloat t1, parseFloat t2 with
            | some a, some b => .ok { st with minN := some a, minE := some b }
            | _, _ => .error .valueError
          | _ => .error .valueError
        else if attrName = "MAX-NØ" then
          match splitWs attrValue with
          | [t1, t2] =>
            match parseFloat t1, parseFloat t2 with
            | some a, some b => .ok { st with maxN := some a, maxE := some b }
            | _, _ => .error .valueError
          | _ => .error .valueError
        else .ok st
      else .ok st
    | _ => .error .valueError
  else .ok st

/-- Lines 348-388 of the source: processing of a line inside an open
capture. The raw line is always appended to the raw-line buffer, then the
two-dot / coordinate / single-dot / reference branches apply. -/
def captureStep (line s : String) (st0 : ScanState) : Except PyErr ScanState :=
  let st := { st0 with currentObject := st0.currentObject ++ [line] }
  if strStartsWith s ".." then
    match splitMax1 (strDrop s 2) with
    | [] => .error .indexError
    | kv0 :: kvrest =>
      let key := lstripDots kv0
      if key = "NØ" || key = "NØH" then
        .ok { st with
          expectingCoordinates := true
          coordinateDim := some (if key = "NØH" then 3 else 2) }
      else
        let v : AttrVal := match kvrest with
          | [w] => .str w
          | _ => .nan
        .ok { st with
          expectingCoordinates := false
          currentAttributes := dictInsert st.currentAttributes key v
          allAttributes := setInsert st.allAttributes key }
  else if st.expectingCoordinates && ¬ strStartsWith s "." then
    let parts := splitWs s
    if st.coordinateDim = some 2 then
      match parts with
      | p0 :: p1 :: _ =>
        match parseFloat p0, parseFloat p1 with
        | some n, some e =>
            .ok { st with coordinates := st.coordinates ++ [⟨e, n, none⟩] }
        | _, _ => .error .valueError
      | _ => .error .indexError
    else
      match parts with
      | p0 :: p1 :: p2 :: _ =>
        match parseFloat p0, parseFloat p1, parseFloat p2 with
        | some n, some e, some h =>
            .ok { st with coordinates := st.coordinates ++ [⟨e, n, some h⟩] }
        | _, _, _ => .error .valueError
      | _ => .error .indexError
  else if strStartsWith s "." && ¬ strStartsWith s ".." then
    .ok { st with expectingCoordinates := false }
  else
    if st.geomType = some ".FLATE" && strStartsWith s "KP" then
      .ok { st with flateRefs := st.flateRefs ++ [s] }
    else .ok st

/-- One iteration of the main loop (lines 239-388 of the source). -/
def processLine (st : ScanState) (line : String) : Except PyErr ScanState :=
  let s := strTrim line
  if strStartsWith s "!" then .ok st
  else if s = ".HODE" then .ok { st with inHeader := true }
  else if strStartsWith s ".KURVE" || strStartsWith s ".PUNKT"
       || strStartsWith s ".FLATE" || strStartsWith s ".SLUTT" then
    markerStep line s st
  else if st.inHeader then headerStep s st
  else if st.capturing then captureStep line s st
  else .ok st

/-- The whole line loop. -/
def scanLines : ScanState → List String → Except PyErr ScanState
  | st, [] => .ok st
  | st, l :: ls =>
    match processLine st l with
    | .error e => .error e
    | .ok st1 => scanLines st1 ls

/-- Emission part of the end-of-file save (lines 392-410 of the source):
the geometry list (one or none) appended for the trailing object. Note that
no curve id is derived and no curve is registered here, unlike the
marker-triggered path. -/
def eofEmit (st : ScanState) : Except PyErr (List Geometry) :=
  match convertTo2dIfMixed st.coordinates st.coordinateDim with
  | .error e => .error e
  | .ok uniform =>
    if st.geomType = some ".KURVE" then
      match mkLineString uniform with
      | .error e => .error e
      | .ok g => .ok [g]
    else if st.geomType = some ".PUNKT" then
      if uniform.length = 1 then
        match uniform.head? with
        | some c => .ok [.point c]
        | none => .error .indexError
      else .ok []
    else if st.geomType = some ".FLATE" then
      if st.flateRefs ≠ [] then
        let flateCoords := flateResolve st.flateRefs st.kurveCoordinates
        if flateCoords ≠ [] then
          match mkPolygon flateCoords with
          | .error e => .error e
          | .ok g => .ok [g]
        else
          match uniform.head? with
          | some c => .ok [.point c]
          | none => .error .indexError
      else
        match uniform.head? with
        | some c => .ok [.point c]
        | none => .error .indexError
    else .ok []

/-- Lines 390-415 of the source: save the last object if one is open (only
when both a coordinate and an attribute were captured; the attributes append
and the raw-line index entry are inside that guard, and `object_id` is not
incremented). -/
def eofFinalize (st : ScanState) : Except PyErr ScanState :=
  if st.capturing && ¬ st.coordinates.isEmpty && ¬ st.currentAttributes.isEmpty then
    match eofEmit st with
    | .error e => .error e
    | .ok gs =>
      .ok { st with
        geometry := st.geometry ++ gs
        attributes := st.attributes ++ [st.currentAttributes]
        sosiIndex := st.sosiIndex ++ [(st.objectId, st.currentObject)] }
  else .ok st

/-- The dictionary `_read_sosi_file` returns. -/
structure SosiResult where
  geometry : List Geometry
  attributes : List Attrs
  allAttributes : List String
  enhetScale : Dec
  sosiIndex : List (Nat × List String)
  minN : Option Dec
  minE : Option Dec
  maxN : Option Dec
  maxE : Option Dec
  headerMeta : HeaderMeta
deriving DecidableEq

/-- `_read_sosi_file` on the decoded list of raw lines: run the scan, save a
trailing object, then fail with the missing-`ENHET` error if no
`...ENHET` was parsed. -/
def readSosiFile (lines : List String) : Except PyErr SosiResult :=
  match scanLines initState lines with
  | .error e => .error e
  | .ok st =>
    match eofFinalize st with
    | .error e => .error e
    | .ok st1 =>
      match st1.enhetScale with
      | none => .error .missingEnhet
      | some q =>
        .ok { geometry := st1.geometry
              attributes := st1.attributes
              allAttributes := st1.allAttributes
              enhetScale := q
              sosiIndex := st1.sosiIndex
              minN := st1.minN, minE := st1.minE, maxN := st1.maxN, maxE := st1.maxE
              headerMeta := st1.headerMeta }

/-- Projection used to state concrete counterexamples. -/
def getOk {α : Type} (r : Except PyErr α) : Option α :=
  match r with
  | .ok v => some v
  | .error _ => none

/-! ### Encoding detection (lines 194-231 of the source) -/

/-- The codecs the detector can resolve. `utf8sig` is Python's
`utf-8-sig` (BOM-tolerant UTF-8); `cp1252` is Python's name for
windows-1252. -/
inductive Codec
  | utf8sig
  | iso8859_1
  | iso8859_10
  | cp1252
deriving DecidableEq

/-- The fixed `encoding_map`, with the scan's default for unmapped codes. -/
def encodingMapGet (tok : String) (dflt : Codec) : Codec :=
  if tok = "ISO8859-10" then .iso8859_10
  else if tok = "ISO8859-1" then .iso8859_1
  else if tok = "UTF-8" then .utf8sig
  else if tok = "ANSI" then .cp1252
  else dflt

/-- Result of one sniffing pass over decoded lines. -/
inductive SniffOutcome
  | found (c : Codec)   -- `..TEGNSETT` line seen: mapped codec
  | stopped             -- a `.KURVE` or `.PUNKT` line seen first
  | exhausted           -- lines ran out
deriving DecidableEq

/-- One sniffing pass: stop at the first `..TEGNSETT` line (map its last
whitespace token) or at the first line starting with `.KURVE` or `.PUNKT`
(and at nothing else: `.FLATE` lines do not stop the pass). -/
def sniffTegnsett : List String → Codec → SniffOutcome
  | [], _ => .exhausted
  | l :: ls, dflt =>
    let s := strTrim l
    if strStartsWith s "..TEGNSETT" then
      .found (encodingMapGet ((splitWs s).getLastD "") dflt)
    else if strStartsWith s ".KURVE" || strStartsWith s ".PUNKT" then .stopped
    else sniffTegnsett ls dflt

/-- Byte-level abstraction of the input file for encoding detection:
UTF-8 decoding lazily yields `utf8Lines` and then either succeeds or
raises (`utf8Fails`); Latin-1 decoding is total and yields `latin1Lines`. -/
structure RawFile where
  utf8Lines : List String
  utf8Fails : Bool
  latin1Lines : List String

/-- The whole detection phase. The first pass scans the UTF-8 decode with
default `utf-8-sig`; a decode error is only observed if the pass exhausts
the decodable lines, in which case the pass is retried on the Latin-1
decode with map default `iso-8859-1`. When the retry finds no declaration,
`file_encoding` keeps its initial `utf-8-sig` value (the inner
`except UnicodeDecodeError` of the source is unreachable: Latin-1 decoding
cannot fail). The function is total: detection never aborts the parse. -/
def detectEncoding (f : RawFile) : Codec :=
  match sniffTegnsett f.utf8Lines .utf8sig with
  | .found c => c
  | .stopped => .utf8sig
  | .exhausted =>
    if f.utf8Fails then
      match sniffTegnsett f.latin1Lines .iso8859_1 with
      | .found c => c
      | _ => .utf8sig
    else .utf8sig

/-! ### GeoDataFrame assembly and the round-trip writer
(`_sosi_to_geodataframe`, lines 535-588, and
`_write_geodataframe_to_sosi`, lines 668-688 of the source) -/

/-- A row of the assembled GeoDataFrame, as far as the replay writer
reads it. -/
structure GdfRow where
  geometry : Geometry
  attrs : Attrs
  originalId : Option Nat
deriving DecidableEq

/-- `shapely.affinity.scale(geom, xfact=s, yfact=s, origin=(0,0))`:
both planar axes scaled, height untouched. -/
def scaleCoord (s : Dec) (c : Coord) : Coord := ⟨c.x.mul s, c.y.mul s, c.z⟩

/-- Scaling of one geometry. -/
def scaleGeometry (s : Dec) : Geometry → Geometry
  | .point c => .point (scaleCoord s c)
  | .lineString cs => .lineString (cs.map (scaleCoord s))
  | .polygon cs => .polygon (cs.map (scaleCoord s))

/-- The single-file core of `_sosi_to_geodataframe`: truncate a
geometry/attribute count mismatch to the shorter length with a warning,
scale the geometries by `ENHET` (a no-op check for 1.0), and assign
`original_id = range(len(gdf))` positionally. -/
def toGeoDataFrame (geometry : List Geometry) (attributes : List Attrs)
    (scaleFactor : Dec) : List GdfRow :=
  let m := min geometry.length attributes.length
  let scaled := (geometry.take m).map
    (fun g => if scaleFactor.veq ⟨1, 0⟩ then g else scaleGeometry scaleFactor g)
  (List.zip scaled (attributes.take m)).enum.map
    (fun p => { geometry := p.2.1, attrs := p.2.2, originalId := some p.1 })

/-- Lookup in the `sosi_index` dict. -/
def lookupIdx (idx : List (Nat × List String)) (i : Nat) : Option (List String) :=
  List.lookup i idx

/-- The replay loop of `_write_geodataframe_to_sosi` (lines 668-688):
rows without an `original_id` are skipped, already-written ids are skipped,
ids missing from the index are skipped with a warning, otherwise the
captured raw lines are emitted verbatim and the id recorded. Total: no
skip is ever fatal. -/
def replayLoop (idx : List (Nat × List String)) :
    List GdfRow → List Nat → List String
  | [], _ => []
  | r :: rs, written =>
    match r.originalId with
    | none => replayLoop idx rs written
    | some i =>
      if written.contains i then replayLoop idx rs written
      else
        match lookupIdx idx i with
        | none => replayLoop idx rs written
        | some block => block ++ replayLoop idx rs (i :: written)

/-- Object-section output of the writer in replay mode (`use_index=True`). -/
def writeReplayBody (rows : List GdfRow) (idx : List (Nat × List String)) :
    List String :=
  replayLoop idx rows []

/-! ### Spec-side auxiliary definitions (used only to state claims) -/

/-- Modelled from the spec: the count of geometry-marker-delimited blocks of
a file — each line starting with `.KURVE`, `.PUNKT` or `.FLATE` opens one
block (the trailing block before `.SLUTT` or end of file included). -/
def geometryMarkerBlockCount (lines : List String) : Nat :=
  (lines.filter (fun l =>
    let s := strTrim l
    strStartsWith s ".KURVE" || strStartsWith s ".PUNKT"
      || strStartsWith s ".FLATE")).length

/-- State of the auxiliary header scan that decides whether the input's
`TRANSPAR` section contains an `ENHET` line. It mirrors exactly the
header-tracking control flow of `processLine`. -/
structure EnhetAux where
  inHeader : Bool
  currentSection : Option String
  found : Bool

/-- Header part of the auxiliary scan, mirroring `headerStep`. -/
def enhetAuxHeader (s : String) (a : EnhetAux) : EnhetAux :=
  if strStartsWith s ".." && ¬ strStartsWith s "..." then
    match (splitWs s).head? with
    | some sec => { a with currentSection := some sec }
    | none => a
  else if strStartsWith s "..." then
    match splitMax1 (strDrop s 3) with
    | [attrName, _] =>
      if a.currentSection = some "..TRANSPAR" ∧ attrName = "ENHET" then
        { a with found := true }
      else a
    | _ => a
  else a

/-- One step of the auxiliary header scan, mirroring `processLine`. -/
def enhetAuxStep (a : EnhetAux) (line : String) : EnhetAux :=
  let s := strTrim line
  if strStartsWith s "!" then a
  else if s = ".HODE" then { a with inHeader := true }
  else if strStartsWith s ".KURVE" || strStartsWith s ".PUNKT"
       || strStartsWith s ".FLATE" || strStartsWith s ".SLUTT" then
    { a with inHeader := false }
  else if a.inHeader then enhetAuxHeader s a
  else a

/-- Whether the `TRANSPAR` header section of the file contains an `ENHET`
line (the hypothesis of the missing-`ENHET` claim). -/
def hasEnhetInTranspar (lines : List String) : Bool :=
  (lines.foldl enhetAuxStep ⟨false, none, false⟩).found

/-- Whether the scan (including the trailing-object save) completes without
a fatal error. -/
def scanCompletes (lines : List String) : Bool :=
  match scanLines initState lines with
  | .error _ => false
  | .ok st =>
    match eofFinalize st with
    | .error _ => false
    | .ok _ => true

/-- Curve-table keys of a completed scan (used to observe the internal
curve ids a parse assigned). -/
def scanKurveIds (lines : List String) : Option (List String) :=
  match scanLines initState lines with
  | .ok st => some (st.kurveCoordinates.map Prod.fst)
  | .error _ => none

/-! ### Concrete input files used by counterexamples and witnesses -/

/-- A valid file whose trailing `.PUNKT` block reaches end of file with no
coordinates: it is a geometry-marker-delimited block but receives neither an
`object_id` nor a raw-line index entry. -/
def c1cexLines : List String :=
  [".HODE\n", "..TRANSPAR\n", "...ENHET 1.0\n", ".PUNKT 1:\n"]

/-- A valid file whose first `.PUNKT` captures two coordinates (hence emits
no geometry) while the second emits one: the GeoDataFrame renumbers
`original_id` positionally, so replay emits the first (geometry-less)
object's block for the surviving row and never emits the second block. -/
def c2cexLines : List String :=
  [".HODE\n", "..TRANSPAR\n", "...ENHET 1.0\n",
   ".PUNKT 1:\n", "..A 1\n", "..NØ\n", "1 2\n", "3 4\n",
   ".PUNKT 2:\n", "..B 1\n", "..NØ\n", "5 6\n", ".SLUTT\n"]

/-- A header with a `TRANSPAR` section but no `ENHET` line. -/
def c3NoEnhetLines : List String :=
  [".HODE\n", "..TRANSPAR\n", "...KOORDSYS 22\n", ".SLUTT\n"]

/-- A valid file with one curve (registered as `KP1`) and one `.FLATE`
carrying attributes and a resolvable `KP1` reference but no coordinates of
its own. -/
def c4cexLines : List String :=
  [".HODE\n", "..TRANSPAR\n", "...ENHET 1.0\n",
   ".KURVE 1:\n", "..OBJTYPE x KP1\n", "..NØ\n", "0 0\n", "1 0\n", "2 1\n",
   ".FLATE 2:\n", "..OBJTYPE f\n", "KP1\n", ".SLUTT\n"]

/-- A curve with no `OBJTYPE` and `ENDRET H`: its synthesized id is
observable in the curve table of the scan state. -/
def c5cexLines : List String :=
  [".KURVE 1:\n", "..ENDRET H\n", "..NØ\n", "1 2\n", "3 4\n", ".SLUTT\n"]

/-- A curve with no `OBJTYPE` and `ENDRET` different from `H`: fatal. -/
def c5fatalLines : List String :=
  [".HODE\n", "..TRANSPAR\n", "...ENHET 1.0\n",
   ".KURVE 1:\n", "..ENDRET X\n", "..NØ\n", "1 2\n", "3 4\n", ".SLUTT\n"]

/-- A `.PUNKT` with exactly one coordinate but no attributes: no geometry is
emitted although exactly one coordinate was captured. -/
def c7cexLines : List String :=
  [".HODE\n", "..TRANSPAR\n", "...ENHET 1.0\n",
   ".PUNKT 1:\n", "..NØ\n", "1 2\n", ".SLUTT\n"]

/-- A file with attribute and coordinate lines after `.SLUTT`: they land in
the `.SLUTT`-opened capture and contribute an attributes entry and a
raw-line index entry at end of file. -/
def c8cexLines : List String :=
  [".HODE\n", "..TRANSPAR\n", "...ENHET 1.0\n",
   ".PUNKT 1:\n", "..A 1\n", "..NØ\n", "1 2\n",
   ".SLUTT\n", "..B 2\n", "..NØ\n", "3 4\n"]

/-- A file containing `.SLUTT` followed by attribute+coordinate content:
the parse succeeds with one more attributes entry than geometries. -/
def c10cexLines : List String :=
  [".HODE\n", "..TRANSPAR\n", "...ENHET 1.0\n",
   ".SLUTT\n", "..X 9\n", "..NØ\n", "5 6\n"]

/-- A well-formed two-object file in which every object emits geometry. -/
def w2Lines : List String :=
  [".HODE\n", "..TRANSPAR\n", "...ENHET 1.0\n",
   ".PUNKT 1:\n", "..A 1\n", "..NØ\n", "1 2\n",
   ".PUNKT 2:\n", "..B 1\n", "..NØ\n", "3 4\n", ".SLUTT\n"]

/-- The parse result of `w2Lines`. -/
def w2Doc : SosiResult where
  geometry := [.point ⟨⟨2, 0⟩, ⟨1, 0⟩, none⟩, .point ⟨⟨4, 0⟩, ⟨3, 0⟩, none⟩]
  attributes := [[("A", .str "1"), ("SOSI_REF", .str "2")], [("B", .str "1")]]
  allAttributes := ["A", "B"]
  enhetScale := ⟨10, 1⟩
  sosiIndex :=
    [(0, [".PUNKT 1:\n", "..A 1\n", "..NØ\n", "1 2\n"]),
     (1, [".PUNKT 2:\n", "..B 1\n", "..NØ\n", "3 4\n"])]
  minN := none
  minE := none
  maxN := none
  maxE := none
  headerMeta := { enhet := some ⟨10, 1⟩ }

/-- A scan state holding an open `.FLATE` capture with one coordinate,
one attribute and no references (witness input). -/
def stFlateW : ScanState :=
  { initState with
    capturing := true
    geomType := some ".FLATE"
    coordinates := [⟨⟨5, 0⟩, ⟨5, 0⟩, none⟩]
    coordinateDim := some 2
    currentAttributes := [("OBJTYPE", .str "f")]
    currentObject := [".FLATE 1:\n"] }

/-- A scan state holding an open `.PUNKT` capture with one coordinate and
one attribute (witness input). -/
def stPunktW : ScanState :=
  { initState with
    capturing := true
    geomType := some ".PUNKT"
    coordinates := [⟨⟨2, 0⟩, ⟨1, 0⟩, none⟩]
    coordinateDim := some 2
    currentAttributes := [("A", .str "1")]
    currentObject := [".PUNKT 1:\n"] }

/-- A scan state inside an active 2D coordinate block (witness input). -/
def stCoordW : ScanState :=
  { initState with
    capturing := true
    geomType := some ".KURVE"
    expectingCoordinates := true
    coordinateDim := some 2
    currentObject := [".KURVE 1:\n"] }

/-- A scan state holding an open `.SLUTT` capture that accumulated an
attribute and a coordinate (witness input). -/
def stSluttW : ScanState :=
  { initState with
    capturing := true
    geomType := some ".SLUTT"
    coordinates := [⟨⟨4, 0⟩, ⟨3, 0⟩, none⟩]
    coordinateDim := some 2
    currentAttributes := [("B", .str "2")]
    currentObject := [".SLUTT\n", "..B 2\n", "..NØ\n", "3 4\n"] }

/-! ## Helper lemmas -/

theorem getOk_eq_some {α : Type} {r : Except PyErr α} {v : α} :
    getOk r = some v ↔ r = .ok v := by
  cases r <;> simp [getOk]

/-- A capture-mode line never touches the emitted lists, the index, the
object counter, the unit scale or the header-tracking fields. -/
theorem captureStep_frame {line s : String} {st st' : ScanState}
    (h : captureStep line s st = .ok st') :
    st'.geometry = st.geometry ∧ st'.attributes = st.attributes ∧
    st'.sosiIndex = st.sosiIndex ∧ st'.objectId = st.objectId ∧
    st'.enhetScale = st.enhetScale ∧ st'.inHeader = st.inHeader ∧
    st'.currentSection = st.currentSection ∧
    st'.kurveCoordinates = st.kurveCoordinates := by
  unfold captureStep at h
  dsimp only at h
  repeat' first
    | (exact ⟨rfl, rfl, rfl, rfl, rfl, rfl, rfl, rfl⟩)
    | (cases h)
    | (split at h)

/-- A header line never touches the emitted lists, the index, the object
counter, the capture state or the header flag. -/
theorem headerStep_frame {s : String} {st st' : ScanState}
    (h : headerStep s st = .ok st') :
    st'.geometry = st.geometry ∧ st'.attributes = st.attributes ∧
    st'.sosiIndex = st.sosiIndex ∧ st'.objectId = st.objectId ∧
    st'.inHeader = st.inHeader ∧ st'.capturing = st.capturing ∧
    st'.coordinates = st.coordinates ∧
    st'.currentAttributes = st.currentAttributes ∧
    st'.kurveCoordinates = st.kurveCoordinates := by
  unfold headerStep at h
  dsimp only at h
  repeat' first
    | (exact ⟨rfl, rfl, rfl, rfl, rfl, rfl, rfl, rfl, rfl⟩)
    | (cases h)
    | (split at h)

/-- The emission of a marker-triggered finalization appends a geometry
exactly when it appends an attributes entry. -/
theorem finalizeEmit_paired {m : String} {st : ScanState}
    {gs : List Geometry} {as : List Attrs} {tbl : List (String × List Coord)}
    (h : finalizeEmit m st = .ok (gs, as, tbl)) : gs.length = as.length := by
  unfold finalizeEmit at h
  dsimp only at h
  repeat' first
    | (split at h)
    | (rfl)
    | (cases h)

/-- Marker-triggered finalization always records the raw-line buffer under
the current object id and increments the id, keeps header tracking and the
unit scale, and appends a geometry exactly when it appends an attributes
entry. -/
theorem finalizeStep_frame {m : String} {st st' : ScanState}
    (h : finalizeStep m st = .ok st') :
    st'.sosiIndex = st.sosiIndex ++ [(st.objectId, st.currentObject)] ∧
    st'.objectId = st.objectId + 1 ∧
    st'.enhetScale = st.enhetScale ∧
    st'.inHeader = st.inHeader ∧
    st'.currentSection = st.currentSection ∧
    st'.geometry.length + st.attributes.length
      = st.geometry.length + st'.attributes.length := by
  unfold finalizeStep at h
  cases hfe : finalizeEmit m st with
  | error e => rw [hfe] at h; cases h
  | ok out =>
    obtain ⟨gs, as, tbl⟩ := out
    rw [hfe] at h
    dsimp only at h
    cases h
    have hp := finalizeEmit_paired hfe
    refine ⟨rfl, rfl, rfl, rfl, rfl, ?_⟩
    simp only [List.length_append]
    omega

/-- A marker line ends the header, opens a fresh capture, and preserves the
unit scale, the section tag, the id/index discipline and the
geometry/attributes pairing. -/
theorem markerStep_spec {line m : String} {st st' : ScanState}
    (h : markerStep line m st = .ok st') :
    st'.inHeader = false ∧ st'.capturing = true ∧
    st'.coordinates = [] ∧ st'.currentAttributes = [] ∧
    st'.enhetScale = st.enhetScale ∧ st'.currentSection = st.currentSection ∧
    (st.sosiIndex.map Prod.fst = List.range st.objectId →
      st'.sosiIndex.map Prod.fst = List.range st'.objectId) ∧
    (st.geometry.length = st.attributes.length →
      st'.geometry.length = st'.attributes.length) := by
  unfold markerStep at h
  cases hcap : st.capturing with
  | false =>
    rw [hcap] at h
    dsimp only at h
    cases hh : (splitWs m).head? with
    | none => rw [hh] at h; cases h
    | some g0 =>
      rw [hh] at h
      cases h
      exact ⟨rfl, rfl, rfl, rfl, rfl, rfl, fun hd => hd, fun hp => hp⟩
  | true =>
    rw [hcap] at h
    dsimp only at h
    cases hf : finalizeStep m st with
    | error e => rw [hf] at h; cases h
    | ok st1 =>
      rw [hf] at h
      dsimp only at h
      obtain ⟨hidx, hoid, henh, _, hsec, hpair⟩ := finalizeStep_frame hf
      cases hh : (splitWs m).head? with
      | none => rw [hh] at h; cases h
      | some g0 =>
        rw [hh] at h
        cases h
        refine ⟨rfl, rfl, rfl, rfl, henh, hsec, ?_, ?_⟩
        · intro hd
          show st1.sosiIndex.map Prod.fst = List.range st1.objectId
          rw [hidx, hoid, List.map_append, hd, List.range_succ]
          rfl
        · intro hp
          show st1.geometry.length = st1.attributes.length
          omega

/-- `processLine` preserves density of the raw-line index ids. -/
theorem processLine_dense {line : String} {st st' : ScanState}
    (h : processLine st line = .ok st')
    (hd : st.sosiIndex.map Prod.fst = List.range st.objectId) :
    st'.sosiIndex.map Prod.fst = List.range st'.objectId := by
  unfold processLine at h
  dsimp only at h
  split at h
  · cases h; exact hd
  · split at h
    · cases h; exact hd
    · split at h
      · exact (markerStep_spec h).2.2.2.2.2.2.1 hd
      · split at h
        · obtain ⟨-, -, hidx, hoid, -⟩ := headerStep_frame h
          rw [hidx, hoid]; exact hd
        · split at h
          · obtain ⟨-, -, hidx, hoid, -⟩ := captureStep_frame h
            rw [hidx, hoid]; exact hd
          · cases h; exact hd

/-- `processLine` preserves the geometry/attributes pairing. -/
theorem processLine_paired {line : String} {st st' : ScanState}
    (h : processLine st line = .ok st')
    (hp : st.geometry.length = st.attributes.length) :
    st'.geometry.length = st'.attributes.length := by
  unfold processLine at h
  dsimp only at h
  split at h
  · cases h; exact hp
  · split at h
    · cases h; exact hp
    · split at h
      · exact (markerStep_spec h).2.2.2.2.2.2.2 hp
      · split at h
        · obtain ⟨hg, ha, -⟩ := headerStep_frame h
          rw [hg, ha]; exact hp
        · split at h
          · obtain ⟨hg, ha, -⟩ := captureStep_frame h
            rw [hg, ha]; exact hp
          · cases h; exact hp

theorem scanLines_dense :
    ∀ (lines : List String) (st st' : ScanState),
      scanLines st lines = .ok st' →
      st.sosiIndex.map Prod.fst = List.range st.objectId →
      st'.sosiIndex.map Prod.fst = List.range st'.objectId := by
  intro lines
  induction lines with
  | nil => intro st st' h hd; cases h; exact hd
  | cons l ls ih =>
    intro st st' h hd
    unfold scanLines at h
    cases hp : processLine st l with
    | error e => rw [hp] at h; cases h
    | ok st1 =>
      rw [hp] at h
      exact ih st1 st' h (processLine_dense hp hd)

theorem scanLines_paired :
    ∀ (lines : List String) (st st' : ScanState),
      scanLines st lines = .ok st' →
      st.geometry.length = st.attributes.length →
      st'.geometry.length = st'.attributes.length := by
  intro lines
  induction lines with
  | nil => intro st st' h hp; cases h; exact hp
  | cons l ls ih =>
    intro st st' h hp
    unfold scanLines at h
    cases hq : processLine st l with
    | error e => rw [hq] at h; cases h
    | ok st1 =>
      rw [hq] at h
      exact ih st1 st' h (processLine_paired hq hp)

/-- The trailing-object save either leaves the index and id untouched or
appends one entry under the current id, without incrementing. -/
theorem eofFinalize_index {st st' : ScanState}
    (h : eofFinalize st = .ok st') :
    (st'.sosiIndex = st.sosiIndex ∧ st'.objectId = st.objectId) ∨
    (st'.sosiIndex = st.sosiIndex ++ [(st.objectId, st.currentObject)] ∧
     st'.objectId = st.objectId) := by
  unfold eofFinalize at h
  split at h
  · cases hfe : eofEmit st with
    | error e => rw [hfe] at h; cases h
    | ok gs =>
      rw [hfe] at h
      dsimp only at h
      cases h
      exact Or.inr ⟨rfl, rfl⟩
  · cases h
    exact Or.inl ⟨rfl, rfl⟩

/-- A state whose current capture has no coordinates (or no attributes) is
left unchanged by the trailing-object save. -/
theorem eofFinalize_noop {st : ScanState}
    (h : st.coordinates = [] ∨ st.currentAttributes = []) :
    eofFinalize st = .ok st := by
  unfold eofFinalize
  rcases h with h | h <;> simp [h]

/-- Processing a line that strips to `.SLUTT` takes the marker branch:
afterwards a fresh (empty) capture is open. -/
theorem processLine_slutt {line : String} {st st' : ScanState}
    (hl : strTrim line = ".SLUTT") (h : processLine st line = .ok st') :
    st'.coordinates = [] ∧ st'.currentAttributes = [] := by
  unfold processLine at h
  dsimp only at h
  rw [hl] at h
  have h1 : strStartsWith ".SLUTT" "!" = false := by decide
  have h2 : ((".SLUTT" : String) = ".HODE") = False :=
    eq_false (by decide)
  have h3 : (strStartsWith ".SLUTT" ".KURVE" || strStartsWith ".SLUTT" ".PUNKT"
      || strStartsWith ".SLUTT" ".FLATE" || strStartsWith ".SLUTT" ".SLUTT") = true := by
    decide
  simp only [h1, h2, h3, Bool.false_eq_true, if_false, if_true,
    eq_self_iff_true] at h
  obtain ⟨-, -, hc, ha, -⟩ := markerStep_spec h
  exact ⟨hc, ha⟩

/-- Every successfully parsed document has raw-line index ids exactly
`0..N-1` in order, `N` the number of index entries. -/
theorem readSosi_denseIds {lines : List String} {doc : SosiResult}
    (h : readSosiFile lines = .ok doc) :
    doc.sosiIndex.map Prod.fst = List.range doc.sosiIndex.length := by
  unfold readSosiFile at h
  cases hs : scanLines initState lines with
  | error e => rw [hs] at h; cases h
  | ok st =>
    rw [hs] at h
    dsimp only at h
    cases he : eofFinalize st with
    | error e => rw [he] at h; cases h
    | ok st1 =>
      rw [he] at h
      dsimp only at h
      cases hq : st1.enhetScale with
      | none => rw [hq] at h; cases h
      | some q =>
        rw [hq] at h
        dsimp only at h
        cases h
        have hd : st.sosiIndex.map Prod.fst = List.range st.objectId :=
          scanLines_dense lines initState st hs (by simp [initState])
        have hlen : st.sosiIndex.length = st.objectId := by
          have := congrArg List.length hd
          simpa using this
        rcases eofFinalize_index he with ⟨hidx, hoid⟩ | ⟨hidx, hoid⟩
        · show st1.sosiIndex.map Prod.fst = List.range st1.sosiIndex.length
          rw [hidx, hlen]
          exact hd
        · show st1.sosiIndex.map Prod.fst = List.range st1.sosiIndex.length
          rw [hidx]
          simp only [List.map_append, List.length_append, List.length_cons,
            List.length_nil, List.map_cons, List.map_nil]
          rw [hd, hlen, List.range_succ]


theorem headerStep_enhetAux {s : String} {st st' : ScanState} {a : EnhetAux}
    (h : headerStep s st = .ok st')
    (hH : st.inHeader = a.inHeader) (hS : st.currentSection = a.currentSection)
    (hF : a.found = false → st.enhetScale = none) :
    st'.inHeader = (enhetAuxHeader s a).inHeader ∧
    st'.currentSection = (enhetAuxHeader s a).currentSection ∧
    ((enhetAuxHeader s a).found = false → st'.enhetScale = none) := by
  unfold headerStep at h
  repeat' first
    | (split at h)
    | (cases h)
  all_goals simp_all [enhetAuxHeader]

theorem processLine_enhetAux {line : String} {st st' : ScanState} {a : EnhetAux}
    (h : processLine st line = .ok st')
    (hH : st.inHeader = a.inHeader) (hS : st.currentSection = a.currentSection)
    (hF : a.found = false → st.enhetScale = none) :
    st'.inHeader = (enhetAuxStep a line).inHeader ∧
    st'.currentSection = (enhetAuxStep a line).currentSection ∧
    ((enhetAuxStep a line).found = false → st'.enhetScale = none) := by
  unfold processLine at h
  unfold enhetAuxStep
  dsimp only at h
  dsimp only
  split at h
  · cases h; simp_all
  · split at h
    · cases h; simp_all
    · split at h
      · obtain ⟨hih, -, -, -, henh, hsec, -, -⟩ := markerStep_spec h
        simp_all
      · split at h
        · have := headerStep_enhetAux h hH hS hF
          simp_all
        · split at h
          · obtain ⟨-, -, -, -, henh, hih, hsec, -⟩ := captureStep_frame h
            simp_all
          · cases h; simp_all

theorem scanLines_enhetAux :
    ∀ (lines : List String) (st st' : ScanState) (a : EnhetAux),
      scanLines st lines = .ok st' →
      st.inHeader = a.inHeader → st.currentSection = a.currentSection →
      (a.found = false → st.enhetScale = none) →
      ((lines.foldl enhetAuxStep a).found = false → st'.enhetScale = none) := by
  intro lines
  induction lines with
  | nil =>
    intro st st' a h hH hS hF
    cases h
    exact hF
  | cons l ls ih =>
    intro st st' a h hH hS hF
    unfold scanLines at h
    cases hp : processLine st l with
    | error e => rw [hp] at h; cases h
    | ok st1 =>
      rw [hp] at h
      obtain ⟨h1, h2, h3⟩ := processLine_enhetAux hp hH hS hF
      exact ih st1 st' (enhetAuxStep a l) h h1 h2 h3

/-- The trailing-object save never touches the unit scale. -/
theorem eofFinalize_enhet {st st' : ScanState} (h : eofFinalize st = .ok st') :
    st'.enhetScale = st.enhetScale := by
  unfold eofFinalize at h
  repeat' first
    | (split at h)
    | (rfl)
    | (cases h)


/-! ## Claim theorems -/

/-- C3: for every input file whose TRANSPAR header section contains no
ENHET line, parsing returns no document at all (no default unit scale is
substituted), and whenever the scan itself completes, the failure is the
missing-required-field error raised at end of scan. -/
theorem c3_missing_enhet_fatal (lines : List String)
    (h : hasEnhetInTranspar lines = false) :
    (∀ r : SosiResult, readSosiFile lines ≠ .ok r) ∧
    (scanCompletes lines = true → readSosiFile lines = .error .missingEnhet) := by
  unfold scanCompletes
  unfold readSosiFile
  cases hs : scanLines initState lines with
  | error e => exact ⟨fun r hr => (by cases hr), fun hc => (by cases hc)⟩
  | ok st =>
    dsimp only
    have henh : st.enhetScale = none := by
      have := scanLines_enhetAux lines initState st ⟨false, none, false⟩ hs
        rfl rfl (fun _ => rfl)
      exact this h
    cases he : eofFinalize st with
    | error e => exact ⟨fun r hr => (by cases hr), fun hc => (by cases hc)⟩
    | ok st1 =>
      dsimp only
      have h1 : st1.enhetScale = none := by
        rw [eofFinalize_enhet he, henh]
      rw [h1]
      exact ⟨fun r hr => (by cases hr), fun _ => rfl⟩

/-- Witness for C3 at a concrete header lacking `...ENHET`. -/
theorem c3_missing_enhet_fatal_witness :
    hasEnhetInTranspar c3NoEnhetLines = false ∧
    scanCompletes c3NoEnhetLines = true ∧
    readSosiFile c3NoEnhetLines = .error .missingEnhet :=
  ⟨by decide, by decide,
    (c3_missing_enhet_fatal c3NoEnhetLines (by decide)).2 (by decide)⟩


theorem scanLines_append (xs ys : List String) (st : ScanState) :
    scanLines st (xs ++ ys) =
      match scanLines st xs with
      | .error e => .error e
      | .ok st1 => scanLines st1 ys := by
  induction xs generalizing st with
  | nil => rfl
  | cons x xs ih =>
    simp only [List.cons_append, scanLines]
    cases hp : processLine st x with
    | error e => rfl
    | ok st1 => exact ih st1

/-- C1 (amended): in every successfully parsed document the raw-line index
ids are exactly `0..N-1` in increasing file order with `N` the number of
index entries; one entry is recorded, regardless of usable geometry, per
marker-triggered finalization (the trailing end-of-file block is indexed
only when it captured both a coordinate and an attribute, and the capture
opened by `.SLUTT` can also receive an id). -/
theorem c1_object_ids_amended :
    (∀ (lines : List String) (doc : SosiResult), readSosiFile lines = .ok doc →
      doc.sosiIndex.map Prod.fst = List.range doc.sosiIndex.length) ∧
    (∀ (m : String) (st st' : ScanState), finalizeStep m st = .ok st' →
      st'.sosiIndex = st.sosiIndex ++ [(st.objectId, st.currentObject)] ∧
      st'.objectId = st.objectId + 1) := by
  constructor
  · intro lines doc h
    exact readSosi_denseIds h
  · intro m st st' h
    obtain ⟨h1, h2, -⟩ := finalizeStep_frame h
    exact ⟨h1, h2⟩

/-- Witness for C1 on a concrete two-object document. -/
theorem c1_object_ids_amended_witness :
    readSosiFile w2Lines = .ok w2Doc ∧
    w2Doc.sosiIndex.map Prod.fst = List.range w2Doc.sosiIndex.length :=
  ⟨by rfl, c1_object_ids_amended.1 w2Lines w2Doc (by rfl)⟩

/-- Counterexample to C1 as stated: `c1cexLines` parses successfully, its
single geometry-marker-delimited block (the trailing `.PUNKT` before end of
file, which captured no coordinate) is counted by the claim, yet the
raw-line index is empty — the block received neither an `object_id` nor an
index entry, so the ids are not `0..N-1`. -/
theorem c1_counterexample :
    getOk (readSosiFile c1cexLines) =
      some ⟨[], [], [], ⟨10, 1⟩, [], none, none, none, none,
        { enhet := some ⟨10, 1⟩ }⟩ ∧
    geometryMarkerBlockCount c1cexLines = 1 ∧
    List.range (geometryMarkerBlockCount c1cexLines) ≠
      ([] : List (Nat × List String)).map Prod.fst :=
  ⟨by rfl, by rfl, by decide⟩

/-- C10 (amended): if the file's last line strips to `.SLUTT` (so every
capture, including the one `.SLUTT` opens, is closed by a marker or empty at
end of file), a successful parse returns geometry and attributes lists of
equal length: each marker-triggered finalization appends exactly one
geometry together with one attribute map, or neither. -/
theorem c10_geometry_attributes_paired (lines : List String) (l : String)
    (hlast : lines.getLast? = some l) (hl : strTrim l = ".SLUTT")
    (doc : SosiResult) (h : readSosiFile lines = .ok doc) :
    doc.geometry.length = doc.attributes.length := by
  unfold readSosiFile at h
  cases hs : scanLines initState lines with
  | error e => rw [hs] at h; cases h
  | ok st =>
    rw [hs] at h
    dsimp only at h
    cases he : eofFinalize st with
    | error e => rw [he] at h; cases h
    | ok st1 =>
      rw [he] at h
      dsimp only at h
      cases hq : st1.enhetScale with
      | none => rw [hq] at h; cases h
      | some q =>
        rw [hq] at h
        dsimp only at h
        cases h
        show st1.geometry.length = st1.attributes.length
        have hpair : st.geometry.length = st.attributes.length :=
          scanLines_paired lines initState st hs rfl
        have hne : lines ≠ [] := by
          intro e
          rw [e] at hlast
          cases hlast
        have hgl : lines.getLast hne = l := by
          have h2 := List.getLast?_eq_getLast lines hne
          rw [h2] at hlast
          exact Option.some_inj.mp hlast
        have hdecomp : lines.dropLast ++ [l] = lines := by
          rw [← hgl]
          exact List.dropLast_append_getLast hne
        rw [← hdecomp] at hs
        rw [scanLines_append] at hs
        cases h0 : scanLines initState lines.dropLast with
        | error e => rw [h0] at hs; cases hs
        | ok st0 =>
          rw [h0] at hs
          dsimp only at hs
          unfold scanLines at hs
          cases hp : processLine st0 l with
          | error e => rw [hp] at hs; cases hs
          | ok stl =>
            rw [hp] at hs
            cases hs
            obtain ⟨hc, -⟩ := processLine_slutt hl hp
            have : eofFinalize st = .ok st := eofFinalize_noop (Or.inl hc)
            rw [this] at he
            cases he
            exact hpair

/-- Witness for C10 on a concrete two-object document ending in `.SLUTT`. -/
theorem c10_geometry_attributes_paired_witness :
    w2Doc.geometry.length = w2Doc.attributes.length :=
  c10_geometry_attributes_paired w2Lines ".SLUTT\n" (by rfl) (by rfl)
    w2Doc (by rfl)

/-- Counterexample to C10 as stated: `c10cexLines` contains a `.SLUTT`
terminator (line 3), yet the parse succeeds with zero geometries and one
attributes entry, because the `.SLUTT`-opened capture reached end of file
holding an attribute and a coordinate. -/
theorem c10_counterexample :
    (getOk (readSosiFile c10cexLines)).map
        (fun r => (r.geometry.length, r.attributes.length)) = some (0, 1) ∧
    c10cexLines.get? 3 = some ".SLUTT\n" :=
  ⟨by rfl, by rfl⟩


/-- C8 (amended): the scan does not stop at `.SLUTT`. Processing a line
stripping to `.SLUTT` finalizes the open capture and then opens a fresh
capture of kind `.SLUTT`; at end of file such a capture never contributes a
geometry, but when it holds both a coordinate and an attribute it does
contribute an attributes entry and a raw-line index entry. -/
theorem c8_slutt_scan_continues :
    (∀ (line : String) (st st1 : ScanState), strTrim line = ".SLUTT" →
      st.capturing = true → finalizeStep ".SLUTT" st = .ok st1 →
      processLine st line = .ok { st1 with
        inHeader := false
        currentAttributes := []
        coordinates := []
        capturing := true
        geomType := some ".SLUTT"
        flateRefs := []
        expectingCoordinates := false
        coordinateDim := none
        currentObject := [line] }) ∧
    (∀ (st : ScanState) (u : List Coord), st.geomType = some ".SLUTT" →
      st.capturing = true → st.coordinates ≠ [] → st.currentAttributes ≠ [] →
      convertTo2dIfMixed st.coordinates st.coordinateDim = .ok u →
      eofFinalize st = .ok { st with
        attributes := st.attributes ++ [st.currentAttributes]
        sosiIndex := st.sosiIndex ++ [(st.objectId, st.currentObject)] }) := by
  constructor
  · intro line st st1 hl hcap hfin
    unfold processLine
    dsimp only
    rw [hl]
    have h1 : strStartsWith ".SLUTT" "!" = false := by decide
    have h2 : ((".SLUTT" : String) = ".HODE") = False := eq_false (by decide)
    have h3 : (strStartsWith ".SLUTT" ".KURVE" || strStartsWith ".SLUTT" ".PUNKT"
        || strStartsWith ".SLUTT" ".FLATE" || strStartsWith ".SLUTT" ".SLUTT")
        = true := by decide
    simp only [h1, h2, h3, Bool.false_eq_true, if_false, if_true,
      eq_self_iff_true]
    unfold markerStep
    rw [hcap]
    dsimp only
    rw [hfin]
    dsimp only
    rfl
  · intro st u hg hcap hco hat hconv
    unfold eofFinalize
    have h1 : st.coordinates.isEmpty = false := by
      cases hx : st.coordinates with
      | nil => exact absurd hx hco
      | cons a as => rfl
    have h2 : st.currentAttributes.isEmpty = false := by
      cases hx : st.currentAttributes with
      | nil => exact absurd hx hat
      | cons a as => rfl
    simp only [hcap, h1, h2, Bool.not_false, Bool.and_self, Bool.true_and,
      Bool.and_true, if_true]
    unfold eofEmit
    rw [hconv]
    rw [hg]
    have hk : (some ".SLUTT" = some ".KURVE") = False := eq_false (by decide)
    have hp : (some ".SLUTT" = some ".PUNKT") = False := eq_false (by decide)
    have hf : (some ".SLUTT" = some ".FLATE") = False := eq_false (by decide)
    simp only [hk, hp, hf, if_false]
    simp

/-- Witness for C8 on a concrete `.SLUTT` capture holding an attribute and
a coordinate. -/
theorem c8_slutt_scan_continues_witness :
    eofFinalize stSluttW = .ok { stSluttW with
      attributes := stSluttW.attributes ++ [stSluttW.currentAttributes]
      sosiIndex := stSluttW.sosiIndex ++
        [(stSluttW.objectId, stSluttW.currentObject)] } :=
  c8_slutt_scan_continues.2 stSluttW [⟨⟨4, 0⟩, ⟨3, 0⟩, none⟩]
    (by rfl) (by rfl) (by decide) (by decide) (by rfl)

/-- Counterexample to C8 as stated: in `c8cexLines` the terminator is line
7, and the lines after it contribute the attribute map `{B: "2"}` and the
raw-line index entry for id 1 to the returned document. -/
theorem c8_counterexample :
    (getOk (readSosiFile c8cexLines)).map
        (fun r => (r.attributes, r.sosiIndex)) =
      some ([[("A", .str "1")], [("B", .str "2")]],
        [(0, [".PUNKT 1:\n", "..A 1\n", "..NØ\n", "1 2\n"]),
         (1, [".SLUTT\n", "..B 2\n", "..NØ\n", "3 4\n"])]) ∧
    c8cexLines.get? 7 = some ".SLUTT\n" :=
  ⟨by rfl, by rfl⟩


/-- C7 (amended): at a marker-triggered finalization of a `.PUNKT` capture,
a Point geometry record is emitted iff exactly one coordinate was captured
AND the attribute map is non-empty; in every other case no geometry and no
attributes entry is appended, but the object still occupies its `object_id`
slot and its raw-line index entry. -/
theorem c7_point_emission (st : ScanState) (m : String)
    (hg : st.geomType = some ".PUNKT") :
    (∀ (u : List Coord) (c : Coord) (a : Attrs),
      st.coordinates ≠ [] → st.currentAttributes ≠ [] →
      convertTo2dIfMixed st.coordinates st.coordinateDim = .ok u → u = [c] →
      sosiRefUpdate m st.currentAttributes = .ok a →
      finalizeStep m st = .ok { st with
        geometry := st.geometry ++ [.point c]
        attributes := st.attributes ++ [a]
        sosiIndex := st.sosiIndex ++ [(st.objectId, st.currentObject)]
        objectId := st.objectId + 1 }) ∧
    (∀ (u : List Coord) (a : Attrs),
      st.coordinates ≠ [] → st.currentAttributes ≠ [] →
      convertTo2dIfMixed st.coordinates st.coordinateDim = .ok u →
      u.length ≠ 1 →
      sosiRefUpdate m st.currentAttributes = .ok a →
      finalizeStep m st = .ok { st with
        sosiIndex := st.sosiIndex ++ [(st.objectId, st.currentObject)]
        objectId := st.objectId + 1 }) ∧
    ((st.coordinates = [] ∨ st.currentAttributes = []) →
      finalizeStep m st = .ok { st with
        sosiIndex := st.sosiIndex ++ [(st.objectId, st.currentObject)]
        objectId := st.objectId + 1 }) := by
  have hk : (some ".PUNKT" = some ".KURVE") = False := eq_false (by decide)
  refine ⟨?_, ?_, ?_⟩
  · intro u c a hc ha hconv hu hsr
    unfold finalizeStep finalizeEmit
    rw [if_pos ⟨hc, ha⟩, hconv, hsr]
    rw [hg]
    simp only [hk, if_false, eq_self_iff_true, if_true]
    subst hu
    rfl
  · intro u a hc ha hconv hlen hsr
    unfold finalizeStep finalizeEmit
    rw [if_pos ⟨hc, ha⟩, hconv, hsr]
    rw [hg]
    simp only [hk, if_false, eq_self_iff_true, if_true]
    rw [if_neg hlen]
    simp
  · intro hor
    unfold finalizeStep finalizeEmit
    rw [if_neg (by
      intro hand
      rcases hor with h | h
      · exact hand.1 h
      · exact hand.2 h)]
    simp

/-- Witness for C7 on a concrete one-coordinate one-attribute `.PUNKT`
capture finalized at `.SLUTT`. -/
theorem c7_point_emission_witness :
    finalizeStep ".SLUTT" stPunktW = .ok { stPunktW with
      geometry := stPunktW.geometry ++ [.point ⟨⟨2, 0⟩, ⟨1, 0⟩, none⟩]
      attributes := stPunktW.attributes ++ [stPunktW.currentAttributes]
      sosiIndex := stPunktW.sosiIndex ++
        [(stPunktW.objectId, stPunktW.currentObject)]
      objectId := stPunktW.objectId + 1 } :=
  (c7_point_emission stPunktW ".SLUTT" (by rfl)).1
    [⟨⟨2, 0⟩, ⟨1, 0⟩, none⟩] ⟨⟨2, 0⟩, ⟨1, 0⟩, none⟩ stPunktW.currentAttributes
    (by decide) (by decide) (by rfl) (by rfl) (by rfl)

/-- Counterexample to C7 as stated: in `c7cexLines` the `.PUNKT` captures
exactly one coordinate but no attribute, and no geometry record is emitted
(the claim predicts emission); the raw-line index entry still exists. -/
theorem c7_counterexample :
    getOk (readSosiFile c7cexLines) =
      some ⟨[], [], [], ⟨10, 1⟩,
        [(0, [".PUNKT 1:\n", "..NØ\n", "1 2\n"])],
        none, none, none, none, { enhet := some ⟨10, 1⟩ }⟩ :=
  by rfl


/-- C4 (amended): at a marker-triggered finalization of a `.FLATE` capture,
when both the captured coordinate list and the attributes are non-empty the
boundary is `flateResolve` — the concatenation, in listed order, of the
coordinate lists of exactly those (stripped) reference lines present in the
curve table at that point of the scan, unresolved ids skipped silently —
emitted as a polygon when non-empty (of at least 3 points; shorter rings
make the shapely constructor fatal) and otherwise falling back to a single
point at the object's own first normalized coordinate; when the coordinate
list or the attributes are empty, nothing is emitted (the claim's
"iff attributes non-empty" is wrong) and only the raw-line index entry is
recorded. -/
theorem c4_flate_resolution (st : ScanState) (m : String)
    (hg : st.geomType = some ".FLATE") :
    (∀ (u : List Coord) (a : Attrs),
      st.coordinates ≠ [] → st.currentAttributes ≠ [] →
      convertTo2dIfMixed st.coordinates st.coordinateDim = .ok u →
      sosiRefUpdate m st.currentAttributes = .ok a →
      st.flateRefs ≠ [] →
      3 ≤ (flateResolve st.flateRefs st.kurveCoordinates).length →
      finalizeStep m st = .ok { st with
        geometry := st.geometry ++
          [.polygon (flateResolve st.flateRefs st.kurveCoordinates)]
        attributes := st.attributes ++ [a]
        sosiIndex := st.sosiIndex ++ [(st.objectId, st.currentObject)]
        objectId := st.objectId + 1 }) ∧
    (∀ (u : List Coord) (c : Coord) (cs : List Coord) (a : Attrs),
      st.coordinates ≠ [] → st.currentAttributes ≠ [] →
      convertTo2dIfMixed st.coordinates st.coordinateDim = .ok u →
      u = c :: cs →
      sosiRefUpdate m st.currentAttributes = .ok a →
      st.flateRefs ≠ [] →
      flateResolve st.flateRefs st.kurveCoordinates = [] →
      finalizeStep m st = .ok { st with
        geometry := st.geometry ++ [.point c]
        attributes := st.attributes ++ [a]
        sosiIndex := st.sosiIndex ++ [(st.objectId, st.currentObject)]
        objectId := st.objectId + 1 }) ∧
    (∀ (u : List Coord) (c : Coord) (cs : List Coord) (a : Attrs),
      st.coordinates ≠ [] → st.currentAttributes ≠ [] →
      convertTo2dIfMixed st.coordinates st.coordinateDim = .ok u →
      u = c :: cs →
      sosiRefUpdate m st.currentAttributes = .ok a →
      st.flateRefs = [] →
      finalizeStep m st = .ok { st with
        geometry := st.geometry ++ [.point c]
        attributes := st.attributes ++ [a]
        sosiIndex := st.sosiIndex ++ [(st.objectId, st.currentObject)]
        objectId := st.objectId + 1 }) ∧
    ((st.coordinates = [] ∨ st.currentAttributes = []) →
      finalizeStep m st = .ok { st with
        sosiIndex := st.sosiIndex ++ [(st.objectId, st.currentObject)]
        objectId := st.objectId + 1 }) := by
  have hk : (some ".FLATE" = some ".KURVE") = False := eq_false (by decide)
  have hp : (some ".FLATE" = some ".PUNKT") = False := eq_false (by decide)
  refine ⟨?_, ?_, ?_, ?_⟩
  · intro u a hc ha hconv hsr hrefs hlen
    unfold finalizeStep finalizeEmit
    rw [if_pos ⟨hc, ha⟩, hconv, hsr]
    rw [hg]
    simp only [hk, hp, if_false, eq_self_iff_true, if_true]
    rw [if_pos hrefs]
    rw [if_pos (by
      intro hnil
      rw [hnil] at hlen
      exact absurd hlen (by decide))]
    unfold mkPolygon
    rw [if_neg (by omega)]
  · intro u c cs a hc ha hconv hu hsr hrefs hres
    unfold finalizeStep finalizeEmit
    rw [if_pos ⟨hc, ha⟩, hconv, hsr]
    rw [hg]
    simp only [hk, hp, if_false, eq_self_iff_true, if_true]
    rw [if_pos hrefs]
    rw [if_neg (by
      intro hne
      exact hne hres)]
    subst hu
    rfl
  · intro u c cs a hc ha hconv hu hsr hrefs
    unfold finalizeStep finalizeEmit
    rw [if_pos ⟨hc, ha⟩, hconv, hsr]
    rw [hg]
    simp only [hk, hp, if_false, eq_self_iff_true, if_true]
    rw [if_neg (by
      intro hne
      exact hne hrefs)]
    subst hu
    rfl
  · intro hor
    unfold finalizeStep finalizeEmit
    rw [if_neg (by
      intro hand
      rcases hor with h | h
      · exact hand.1 h
      · exact hand.2 h)]
    simp

/-- Witness for C4: a `.FLATE` capture with one own coordinate `(5,5)`, one
attribute and no references falls back to the single point `(5,5)`. -/
theorem c4_flate_resolution_witness :
    finalizeStep ".SLUTT" stFlateW = .ok { stFlateW with
      geometry := stFlateW.geometry ++ [.point ⟨⟨5, 0⟩, ⟨5, 0⟩, none⟩]
      attributes := stFlateW.attributes ++ [stFlateW.currentAttributes]
      sosiIndex := stFlateW.sosiIndex ++
        [(stFlateW.objectId, stFlateW.currentObject)]
      objectId := stFlateW.objectId + 1 } :=
  (c4_flate_resolution stFlateW ".SLUTT" (by rfl)).2.2.1
    [⟨⟨5, 0⟩, ⟨5, 0⟩, none⟩] ⟨⟨5, 0⟩, ⟨5, 0⟩, none⟩ []
    stFlateW.currentAttributes
    (by decide) (by decide) (by rfl) (by rfl) (by rfl) (by rfl)

/-- Counterexample to C4 as stated: in `c4cexLines` the `.FLATE` has a
non-empty attribute map and a reference `KP1` that resolves in the curve
table, yet no geometry and no attributes entry is emitted for it (only the
curve's LineString is in the result), because the surface captured no
coordinate of its own — emission requires both non-empty coordinates and
non-empty attributes. -/
theorem c4_counterexample :
    (getOk (readSosiFile c4cexLines)).map
        (fun r => (r.geometry, r.attributes.length, r.sosiIndex.length)) =
      some ([.lineString [⟨⟨0, 0⟩, ⟨0, 0⟩, none⟩, ⟨⟨0, 0⟩, ⟨1, 0⟩, none⟩,
        ⟨⟨1, 0⟩, ⟨2, 0⟩, none⟩]], 1, 2) :=
  by rfl


theorem strStartsWith_trans {s p q : String}
    (h1 : strStartsWith s p = true) (h2 : strStartsWith p q = true) :
    strStartsWith s q = true := by
  unfold strStartsWith at *
  rw [List.isPrefixOf_iff_prefix] at *
  exact h2.trans h1

/-- C5 (amended): for a finalized Curve, a present (non-empty, string)
`OBJTYPE` yields the last whitespace token of its value as `curve_id`; with
`OBJTYPE` absent, `ENDRET = "H"` synthesizes `kurve_<object_id>` (the
claim's `curve_<object_id>` spelling is wrong), and otherwise the fatal
missing-OBJTYPE error aborts the parse (shown end-to-end on
`c5fatalLines`). -/
theorem c5_curve_id_derivation :
    (∀ (attrs : Attrs) (oid : Nat) (v t : String),
      List.lookup "OBJTYPE" attrs = some (.str v) →
      (splitWs v).getLast? = some t →
      deriveKurveId attrs oid = .ok t) ∧
    (∀ (attrs : Attrs) (oid : Nat),
      List.lookup "OBJTYPE" attrs = none →
      List.lookup "ENDRET" attrs = some (.str "H") →
      deriveKurveId attrs oid = .ok ("kurve_" ++ toString oid)) ∧
    (∀ (attrs : Attrs) (oid : Nat),
      List.lookup "OBJTYPE" attrs = none →
      dictGetD attrs "ENDRET" (.str "") ≠ .str "H" →
      deriveKurveId attrs oid = .error .missingObjtype) ∧
    readSosiFile c5fatalLines = .error .missingObjtype := by
  refine ⟨?_, ?_, ?_, by rfl⟩
  · intro attrs oid v t h1 h2
    have hv : v ≠ "" := by
      intro e
      subst e
      cases h2
    unfold deriveKurveId dictGetD
    rw [h1]
    dsimp only [Option.getD]
    rw [show AttrVal.truthy (.str v) = true from decide_eq_true hv]
    rw [if_pos rfl]
    rw [h2]
  · intro attrs oid h1 h2
    unfold deriveKurveId dictGetD
    rw [h1, h2]
    dsimp only [Option.getD]
    rw [show AttrVal.truthy (.str "") = false from by decide]
    rw [if_neg (by simp)]
    rw [if_pos rfl]
  · intro attrs oid h1 h2
    unfold deriveKurveId
    unfold dictGetD
    rw [h1]
    dsimp only [Option.getD]
    rw [show AttrVal.truthy (.str "") = false from by decide]
    rw [if_neg (by simp)]
    rw [if_neg (by
      intro he
      exact h2 (by unfold dictGetD; exact he))]

/-- Witness for C5: `OBJTYPE "Vei 42"` yields curve id `"42"`. -/
theorem c5_curve_id_derivation_witness :
    deriveKurveId [("OBJTYPE", AttrVal.str "Vei 42")] 0 = .ok "42" :=
  c5_curve_id_derivation.1 [("OBJTYPE", AttrVal.str "Vei 42")] 0
    "Vei 42" "42" (by rfl) (by rfl)

/-- Counterexample to C5 as stated: the historical curve of `c5cexLines`
(no `OBJTYPE`, `ENDRET H`, finalized as object 0) is registered in the
curve table under `kurve_0`, not `curve_0`. -/
theorem c5_counterexample :
    scanKurveIds c5cexLines = some ["kurve_0"] ∧
    ("kurve_0" : String) ≠ "curve_0" :=
  ⟨by rfl, by decide⟩


/-- C6: while a 2D coordinate block is active inside a capture (and the
line is neither a comment nor dot-prefixed), the first two whitespace
tokens are read as (northing, easting) and the coordinate is stored
axis-swapped as (easting, northing). -/
theorem c6_axis_swap (line : String) (st : ScanState)
    (hcap : st.capturing = true) (hih : st.inHeader = false)
    (hexp : st.expectingCoordinates = true) (hdim : st.coordinateDim = some 2)
    (hnc : strStartsWith (strTrim line) "!" = false)
    (hnd : strStartsWith (strTrim line) "." = false) :
    ∀ (t0 t1 : String) (rest : List String) (n e : Dec),
      splitWs (strTrim line) = t0 :: t1 :: rest →
      parseFloat t0 = some n → parseFloat t1 = some e →
      processLine st line = .ok { st with
        currentObject := st.currentObject ++ [line]
        coordinates := st.coordinates ++ [⟨e, n, none⟩] } := by
  intro t0 t1 rest n e hsplit hn he
  have hdotOf : ∀ p : String, strStartsWith p "." = true →
      strStartsWith (strTrim line) p = false := by
    intro p hp
    cases hx : strStartsWith (strTrim line) p with
    | false => rfl
    | true => exact absurd (strStartsWith_trans hx hp) (by rw [hnd]; decide)
  have hnk := hdotOf ".KURVE" (by decide)
  have hnp := hdotOf ".PUNKT" (by decide)
  have hnf := hdotOf ".FLATE" (by decide)
  have hns := hdotOf ".SLUTT" (by decide)
  have hnd2 := hdotOf ".." (by decide)
  have hnh : (strTrim line = ".HODE") = False :=
    eq_false (by
      intro heq
      rw [heq] at hnd
      exact absurd hnd (by decide))
  unfold processLine
  dsimp only
  simp only [hnc, hnh, hnk, hnp, hnf, hns, hih, Bool.or_self, Bool.or_false,
    Bool.false_eq_true, if_false, hcap, if_true]
  unfold captureStep
  simp only [hnd2, hexp, hnd, Bool.not_false, Bool.and_self, Bool.true_and,
    Bool.and_true, Bool.false_eq_true, if_false, if_true]
  rw [hdim]
  rw [if_pos rfl]
  rw [hsplit]
  dsimp only
  rw [hn, he]
  simp [hexp, hdim]
  exact ⟨hcap, hih⟩

/-- Witness for C6: the coordinate line `"1000.00 2000.00"` under a 2D
block yields the internal coordinate (easting 2000.00, northing 1000.00). -/
theorem c6_axis_swap_witness :
    processLine stCoordW "1000.00 2000.00" = .ok { stCoordW with
      currentObject := stCoordW.currentObject ++ ["1000.00 2000.00"]
      coordinates := stCoordW.coordinates ++
        [⟨⟨200000, 2⟩, ⟨100000, 2⟩, none⟩] } :=
  c6_axis_swap "1000.00 2000.00" stCoordW rfl rfl rfl rfl (by decide)
    (by decide) "1000.00" "2000.00" [] ⟨100000, 2⟩ ⟨200000, 2⟩
    (by rfl) (by rfl) (by rfl)


theorem replayLoop_eq_flatMap (idx : List (Nat × List String)) :
    ∀ (rows : List GdfRow) (ids : List Nat) (written : List Nat),
      rows.map GdfRow.originalId = ids.map some →
      ids.Nodup → (∀ i ∈ ids, i ∉ written) →
      replayLoop idx rows written =
        ids.flatMap (fun i => (lookupIdx idx i).getD []) := by
  intro rows
  induction rows with
  | nil =>
    intro ids written hmap _ _
    cases ids with
    | nil => rfl
    | cons i is => simp at hmap
  | cons r rs ih =>
    intro ids written hmap hnd hdisj
    cases ids with
    | nil => simp at hmap
    | cons i is =>
      simp only [List.map_cons, List.cons.injEq] at hmap
      obtain ⟨hr, hrs⟩ := hmap
      obtain ⟨hni, hnd'⟩ := List.nodup_cons.mp hnd
      have hiw : written.contains i = false := by
        cases hw : written.contains i with
        | false => rfl
        | true =>
          exact absurd (List.elem_iff.mp hw) (hdisj i (List.mem_cons_self i is))
      unfold replayLoop
      rw [hr]
      dsimp only
      rw [hiw]
      simp only [Bool.false_eq_true, if_false]
      rw [List.flatMap_cons]
      cases hl : lookupIdx idx i with
      | none =>
        simp only [Option.getD_none, List.nil_append]
        exact ih is written hrs hnd'
          (fun j hj => hdisj j (List.mem_cons_of_mem i hj))
      | some b =>
        simp only [Option.getD_some]
        rw [ih is (i :: written) hrs hnd' (fun j hj => by
          intro hmem
          rcases List.mem_cons.mp hmem with h | h
          · exact hni (h ▸ hj)
          · exact hdisj j (List.mem_cons_of_mem i hj) h)]

theorem flatMap_lookup_eq_flatten :
    ∀ (idx : List (Nat × List String)) (idx0 : List (Nat × List String))
      (k : Nat),
      idx.map Prod.fst = List.range' k idx.length →
      (∀ i, k ≤ i → lookupIdx idx0 i = lookupIdx idx i) →
      (List.range' k idx.length).flatMap
          (fun i => (lookupIdx idx0 i).getD []) =
        (idx.map Prod.snd).flatten := by
  intro idx
  induction idx with
  | nil => intro idx0 k h hpt; rfl
  | cons p rest ih =>
    intro idx0 k h hpt
    have hlen : (p :: rest).length = rest.length + 1 := rfl
    rw [hlen] at h ⊢
    rw [List.range'_succ] at h ⊢
    simp only [List.map_cons, List.cons.injEq] at h
    obtain ⟨hp1, hrest⟩ := h
    rw [List.flatMap_cons]
    obtain ⟨p1, p2⟩ := p
    simp only at hp1
    subst hp1
    have hhead : lookupIdx idx0 p1 = some p2 := by
      rw [hpt p1 (Nat.le_refl p1)]
      unfold lookupIdx
      simp [List.lookup]
    rw [hhead]
    simp only [Option.getD_some, List.map_cons, List.flatten_cons]
    congr 1
    exact ih idx0 (p1 + 1) hrest (fun i hi => by
      rw [hpt i (Nat.le_of_succ_le hi)]
      unfold lookupIdx
      have hik : (i == p1) = false := by
        simp only [beq_eq_false_iff_ne, ne_eq]
        omega
      simp [List.lookup, hik])

theorem toGeoDataFrame_ids (g : List Geometry) (a : List Attrs) (s : Dec) :
    (toGeoDataFrame g a s).map GdfRow.originalId =
      (List.range (min g.length a.length)).map some := by
  unfold toGeoDataFrame
  rw [List.map_map]
  have hx : ((List.zip
        ((g.take (min g.length a.length)).map
          (fun geom => if s.veq ⟨1, 0⟩ then geom else scaleGeometry s geom))
        (a.take (min g.length a.length))).enum.map
      (fun p => some p.1)) =
      (List.range (min g.length a.length)).map some := by
    rw [show (fun p : Nat × (Geometry × Attrs) => some p.1) =
      (some ∘ Prod.fst) from rfl]
    rw [← List.map_map]
    rw [List.enum_map_fst]
    congr 1
    congr 1
    simp only [List.length_zip, List.length_map, List.length_take]
    omega
  exact hx

/-- C2 (amended): replay-mode writing emits, for each row of the record
collection in order, the raw-line block stored in the index under the
row's `original_id`, skipping (never fatally) rows without an id, rows
whose id is missing from the index, and already-emitted ids. When every
indexed object yielded a geometry record — so the positional renumbering
`original_id = range(len(gdf))` coincides with the index ids — this
reproduces every captured raw-line block byte-for-byte, in file order. -/
theorem c2_replay_round_trip :
    (∀ (lines : List String) (doc : SosiResult),
      readSosiFile lines = .ok doc →
      doc.geometry.length = doc.sosiIndex.length →
      doc.attributes.length = doc.sosiIndex.length →
      writeReplayBody
          (toGeoDataFrame doc.geometry doc.attributes doc.enhetScale)
          doc.sosiIndex =
        (doc.sosiIndex.map Prod.snd).flatten) ∧
    (∀ (i : Nat) (r : GdfRow) (rows : List GdfRow)
       (idx : List (Nat × List String)),
      r.originalId = some i → lookupIdx idx i = none →
      writeReplayBody (r :: rows) idx = writeReplayBody rows idx) ∧
    (∀ (r : GdfRow) (rows : List GdfRow) (idx : List (Nat × List String)),
      r.originalId = none →
      writeReplayBody (r :: rows) idx = writeReplayBody rows idx) := by
  refine ⟨?_, ?_, ?_⟩
  · intro lines doc h hg ha
    have hdense := readSosi_denseIds h
    have hids := toGeoDataFrame_ids doc.geometry doc.attributes doc.enhetScale
    rw [hg, ha] at hids
    rw [Nat.min_self] at hids
    unfold writeReplayBody
    rw [replayLoop_eq_flatMap doc.sosiIndex _ (List.range doc.sosiIndex.length)
      [] hids (List.nodup_range _) (fun i _ hmem => by cases hmem)]
    rw [List.range_eq_range']
    exact flatMap_lookup_eq_flatten doc.sosiIndex doc.sosiIndex 0
      (by rw [← List.range_eq_range']; exact hdense) (fun i _ => rfl)
  · intro i r rows idx hr hl
    unfold writeReplayBody replayLoop
    rw [hr]
    dsimp only
    simp only [show (([] : List Nat).contains i) = false from rfl,
      Bool.false_eq_true, if_false, hl]
    cases rows <;> rfl
  · intro r rows idx hr
    unfold writeReplayBody replayLoop
    rw [hr]
    cases rows <;> rfl

/-- Witness for C2 on a concrete two-object document in which both objects
yield geometry: replay reproduces both captured blocks in order. -/
theorem c2_replay_round_trip_witness :
    writeReplayBody (toGeoDataFrame w2Doc.geometry w2Doc.attributes
        w2Doc.enhetScale) w2Doc.sosiIndex =
      (w2Doc.sosiIndex.map Prod.snd).flatten ∧
    readSosiFile w2Lines = .ok w2Doc :=
  ⟨c2_replay_round_trip.1 w2Lines w2Doc (by rfl) (by rfl) (by rfl), by rfl⟩

/-- Counterexample to C2 as stated: `c2cexLines` parses successfully, but
its first object (two coordinates, hence no geometry) occupies index id 0
while the only GeoDataFrame row is renumbered to `original_id = 0`; replay
therefore emits the first object's block for the second object's row and
never emits the second block — not every original object's block is
reproduced. -/
theorem c2_counterexample :
    (getOk (readSosiFile c2cexLines)).map
        (fun r => (writeReplayBody
          (toGeoDataFrame r.geometry r.attributes r.enhetScale) r.sosiIndex,
          r.sosiIndex.length)) =
      some ([".PUNKT 1:\n", "..A 1\n", "..NØ\n", "1 2\n", "3 4\n"], 2) ∧
    (getOk (readSosiFile c2cexLines)).map
        (fun r => (r.sosiIndex.map Prod.snd).flatten) ≠
      (getOk (readSosiFile c2cexLines)).map
        (fun r => writeReplayBody
          (toGeoDataFrame r.geometry r.attributes r.enhetScale) r.sosiIndex) :=
  ⟨by rfl, by decide⟩


/-- C9 (amended): the declaration sniff is a total function (it never
aborts the parse). The pass stops only at `..TEGNSETT` lines or lines
starting with `.KURVE` or `.PUNKT` — a `.FLATE` line does NOT stop it; the
fixed table maps ISO8859-10, ISO8859-1, UTF-8 (to the BOM-tolerant
`utf-8-sig`) and ANSI (to `cp1252`, i.e. windows-1252), defaulting to the
pass's own default for unrecognized codes (UTF-8 in the first pass,
Latin-1 inside the retry's table lookup); when the UTF-8 pass hits a
decode error the pass is retried on the Latin-1 decode, and if the
declaration is still not found the resolved encoding stays the initial
BOM-tolerant UTF-8 — not Latin-1. -/
theorem c9_encoding_detection :
    (∀ (l : String) (rest : List String) (d : Codec),
      strStartsWith (strTrim l) "..TEGNSETT" = false →
      strStartsWith (strTrim l) ".KURVE" = false →
      strStartsWith (strTrim l) ".PUNKT" = false →
      sniffTegnsett (l :: rest) d = sniffTegnsett rest d) ∧
    (∀ (l : String) (rest : List String) (d : Codec),
      strStartsWith (strTrim l) "..TEGNSETT" = false →
      (strStartsWith (strTrim l) ".KURVE" = true ∨
       strStartsWith (strTrim l) ".PUNKT" = true) →
      sniffTegnsett (l :: rest) d = .stopped) ∧
    (detectEncoding ⟨["..TEGNSETT ISO8859-10"], false, []⟩ = .iso8859_10 ∧
     detectEncoding ⟨["..TEGNSETT ISO8859-1"], false, []⟩ = .iso8859_1 ∧
     detectEncoding ⟨["..TEGNSETT UTF-8"], false, []⟩ = .utf8sig ∧
     detectEncoding ⟨["..TEGNSETT ANSI"], false, []⟩ = .cp1252 ∧
     detectEncoding ⟨["..TEGNSETT SOMECODE"], false, []⟩ = .utf8sig) ∧
    (detectEncoding ⟨[], true, ["..TEGNSETT SOMECODE"]⟩ = .iso8859_1 ∧
     detectEncoding ⟨[], true, ["no declaration"]⟩ = .utf8sig) := by
  refine ⟨?_, ?_, ⟨by rfl, by rfl, by rfl, by rfl, by rfl⟩,
    ⟨by rfl, by rfl⟩⟩
  · intro l rest d h1 h2 h3
    unfold sniffTegnsett
    simp only [h1, h2, h3, Bool.or_self, Bool.false_eq_true, if_false]
    cases rest <;> rfl
  · intro l rest d h1 h2
    unfold sniffTegnsett
    rcases h2 with h2 | h2 <;>
      simp only [h1, h2, Bool.true_or, Bool.or_true, Bool.false_eq_true,
        if_false, if_true]

/-- Witness for C9: a `.FLATE` line does not stop the sniffing pass. -/
theorem c9_encoding_detection_witness :
    sniffTegnsett [".FLATE 1:", "..TEGNSETT ANSI"] .utf8sig =
      sniffTegnsett ["..TEGNSETT ANSI"] .utf8sig :=
  c9_encoding_detection.1 ".FLATE 1:" ["..TEGNSETT ANSI"] .utf8sig
    (by decide) (by decide) (by decide)

/-- Counterexample to C9 as stated: a `..TEGNSETT` declaration after a
`.FLATE` line is still honoured (the claim says the scan stops at any
geometry-object marker and keeps UTF-8), and a failed UTF-8 decode with no
declaration in the Latin-1 retry resolves to the BOM-tolerant UTF-8
default, not Latin-1 as claimed. -/
theorem c9_counterexample :
    detectEncoding ⟨[".FLATE 1:", "..TEGNSETT ANSI"], false, []⟩ = .cp1252 ∧
    Codec.cp1252 ≠ Codec.utf8sig ∧
    detectEncoding ⟨[], true, ["no declaration"]⟩ = .utf8sig ∧
    Codec.utf8sig ≠ Codec.iso8859_1 :=
  ⟨by rfl, by decide, by rfl, by decide⟩

end Sosi
